import Mathlib

/-!
# Verification of the server-monitor plugin core (`main.py`)

A shallow embedding of the connection/monitoring logic of the plugin:
the bounded-retry SSH connector, the health-check alert state machine,
the daily report scheduler's wait computation, the TTL status cache,
the status fetcher's output parsing, cache persistence, and the
configuration digest / change guard.

Times are modelled in whole seconds as `Int` (Python `datetime`
differences via `total_seconds()`); remote I/O outcomes are passed in
explicitly as data so the pure control flow of the source can be
stated and proved.
-/

/-- Outcome of one `_ssh_conn()` call inside `_connect_with_retry`,
mirroring the `except` clauses of the source: success,
`asyncssh.PermissionDenied`, `asyncssh.TimeoutError`, `OSError`,
or any other `Exception`. -/
inductive SSHResult where
  | success
  | permissionDenied
  | timeoutError
  | osError
  | otherError
deriving Repr, DecidableEq

/-- The three `except` arms that increment `attempts`, sleep 15 s and
continue the loop (timeout, `OSError`, generic `Exception`). -/
def SSHResult.isTransient : SSHResult → Bool
  | .success => false
  | .permissionDenied => false
  | .timeoutError => true
  | .osError => true
  | .otherError => true

/-- Result of `_connect_with_retry`: the returned `(ok, msg)` pair,
plus the observable effects the claims talk about: how many connection
attempts (`_ssh_conn` calls) were made, the sleeps performed in order,
and the final value of `self.connected`. -/
structure RetryResult where
  ok : Bool
  msg : String
  calls : Nat
  sleeps : List Nat
  connected : Bool
deriving Repr, DecidableEq

/-- `_connect_with_retry`'s loop.  The source runs
`while attempts < 4 and elapsed < 120`; here `remaining = 4 - attempts`
so the `attempts < 4` conjunct is the `remaining` pattern match, and
`elapsed` tracks seconds spent (attempts themselves are modelled as
instantaneous; each transient failure sleeps 15 s before re-checking
the condition, exactly as `await asyncio.sleep(15)` does).
`outcomes n` is what the n-th `_ssh_conn()` call does.  `sl`
accumulates the sleeps performed so far (most recent first). -/
def connectLoop (outcomes : Nat → SSHResult) :
    Nat → Nat → Nat → List Nat → RetryResult
  | 0, attempts, _, sl =>
      ⟨false, "❌ 连续 4 次连接失败，请检查配置", attempts, sl.reverse, false⟩
  | remaining + 1, attempts, elapsed, sl =>
      if elapsed < 120 then
        match outcomes attempts with
        | .success =>
            ⟨true, "✅ SSH 连接成功", attempts + 1, sl.reverse, true⟩
        | .permissionDenied =>
            ⟨false, "❌ 认证失败：用户名/密码或密钥错误", attempts + 1, sl.reverse, false⟩
        | _ => connectLoop outcomes remaining (attempts + 1) (elapsed + 15) (15 :: sl)
      else
        ⟨false, "❌ 连续 4 次连接失败，请检查配置", attempts, sl.reverse, false⟩

/-- `_connect_with_retry`: starts the loop with `attempts = 0`,
no time elapsed, and the full budget of 4 attempts. -/
def connectWithRetry (outcomes : Nat → SSHResult) : RetryResult :=
  connectLoop outcomes 4 0 0 []

/-- `HealthState`: the plugin's `self.connected` flag and
`self.last_success` timestamp (seconds). -/
structure HealthState where
  connected : Bool
  lastSuccess : Option Int
deriving Repr, DecidableEq

/-- One iteration body of `schedule_health_check` after its sleep:
on a non-null status set `connected := true` and stamp
`last_success := now`; on a null status, alert (returning `true`)
exactly when `self.connected and self.last_success and
(now - last_success) > 1200`, and then set `connected := false`. -/
def healthStep (s : HealthState) (now : Int) (status : Option String) :
    HealthState × Bool :=
  match status with
  | some _ => (⟨true, some now⟩, false)
  | none =>
      if s.connected then
        match s.lastSuccess with
        | some t =>
            if now - t > 1200 then (⟨false, some t⟩, true)
            else (s, false)
        | none => (s, false)
      else (s, false)

/-- The `schedule_health_check` loop over a list of poll outcomes:
each iteration sleeps 300 s and then observes one status; returns the
alert flag of every iteration in order. -/
def healthRun (s : HealthState) (t0 : Int) : List (Option String) → List Bool
  | [] => []
  | st :: rest =>
      let r := healthStep s (t0 + 300) st
      r.2 :: healthRun r.1 (t0 + 300) rest

/-- Seconds-since-midnight of a time-of-day. -/
def timeToSecs (h m s : Nat) : Nat := h * 3600 + m * 60 + s

/-- The sleep computed by one iteration of `schedule_daily_report`
for current time `nh:nm:ns` and `report_time` `th:tm`.  The source
compares `now.time() >= target_time` (equivalent to comparing total
seconds, as minutes and seconds are below 60) and then sleeps
`86400 - (now.hour*3600 + now.minute*60 + now.second)` in the first
branch, and `(target.hour*3600 + target.minute*60) - (now.hour*3600 +
now.minute*60 + now.second)` in the second. -/
def dailyWaitSeconds (nh nm ns th tm : Nat) : Int :=
  if timeToSecs nh nm ns ≥ timeToSecs th tm 0 then
    86400 - ((nh : Int) * 3600 + nm * 60 + ns)
  else
    ((th : Int) * 3600 + tm * 60) - ((nh : Int) * 3600 + nm * 60 + ns)

/-- Following the spec's words, for comparison with `dailyWaitSeconds`:
the number of seconds from `nh:nm:ns` until the next occurrence of the
wall-clock time `th:tm` — today's occurrence if it is still ahead,
otherwise tomorrow's. -/
def specNextOccurrenceWait (nh nm ns th tm : Nat) : Int :=
  if timeToSecs nh nm ns < timeToSecs th tm 0 then
    (timeToSecs th tm 0 : Int) - timeToSecs nh nm ns
  else
    86400 - (timeToSecs nh nm ns : Int) + timeToSecs th tm 0

/-- An entry of `self.cache`: `{"ts": ..., "status": ...}`. -/
structure CacheEntry where
  ts : Int
  status : String
deriving Repr, DecidableEq

/-- What one call of `get_server_status` returns and does:
the returned status, whether `_fetch_status` was invoked
(a remote round-trip), and the cache afterwards. -/
structure StatusResult where
  result : Option String
  fetched : Bool
  cache : String → Option CacheEntry

/-- `get_server_status`: serve from `self.cache[ip]` when the entry is
younger than 60 s; otherwise call `_fetch_status` (its outcome is the
`fresh` argument) and, when it succeeded, overwrite the entry with the
new status stamped `now`. -/
def getServerStatus (cache : String → Option CacheEntry) (ip : String)
    (now : Int) (fresh : Option String) : StatusResult :=
  match cache ip with
  | some e =>
      if now - e.ts < 60 then ⟨some e.status, false, cache⟩
      else
        match fresh with
        | some s => ⟨some s, true, fun k => if k = ip then some ⟨now, s⟩ else cache k⟩
        | none => ⟨none, true, cache⟩
  | none =>
      match fresh with
      | some s => ⟨some s, true, fun k => if k = ip then some ⟨now, s⟩ else cache k⟩
      | none => ⟨none, true, cache⟩

/-- Python `str.isspace` for the ASCII whitespace `str.strip()` removes. -/
def pyIsSpace (c : Char) : Bool :=
  c = ' ' || c = '\t' || c = '\n' || c = '\r' || c = '\x0b' || c = '\x0c'

/-- Python `str.strip()`: drop leading and trailing whitespace. -/
def pyStrip (s : String) : String :=
  ⟨((s.toList.dropWhile pyIsSpace).reverse.dropWhile pyIsSpace).reverse⟩

/-- Worker for `pySplitlines`: emits the accumulated line (held
reversed) at every line boundary, and the final partial line when
non-empty. -/
def pySplitlinesGo : List Char → List Char → List String
  | [], acc => if acc.isEmpty then [] else [⟨acc.reverse⟩]
  | '\r' :: '\n' :: rest, acc => ⟨acc.reverse⟩ :: pySplitlinesGo rest []
  | '\r' :: rest, acc => ⟨acc.reverse⟩ :: pySplitlinesGo rest []
  | '\n' :: rest, acc => ⟨acc.reverse⟩ :: pySplitlinesGo rest []
  | c :: rest, acc => pySplitlinesGo rest (c :: acc)

/-- Python `str.splitlines()`, covering the line boundaries that occur
in remote shell output (`\n`, `\r\n`, `\r`): no trailing empty line is
produced for a string ending in a boundary. -/
def pySplitlines (s : String) : List String := pySplitlinesGo s.toList []

/-- Outcome of the remote command execution inside `_fetch_status`:
either a transport error raised while acquiring the session or running
the command, or the command's stdout. -/
inductive RemoteRun where
  | err
  | out (stdout : String)
deriving Repr, DecidableEq

/-- The report string built by `_fetch_status` from the four parsed
fields. -/
def formatStatus (host uptime mem disk : String) : String :=
  "📌 " ++ host ++ " | ⏱ " ++ uptime ++ " | 💾 内存 " ++ mem ++ "% | 💿 磁盘 " ++ disk ++ "%"

/-- `_fetch_status`: any raised transport error is caught by the
surrounding `try`/`except` and yields `None`.  Otherwise
`lines = result.stdout.strip().splitlines()`; when `len(lines) >= 4`
the source unpacks `host, uptime, mem, disk = lines`, which succeeds
only for exactly four lines — for more the unpacking raises
`ValueError`, also caught by the same `except` (the `_` match arm
below); when `len(lines) < 4` control falls through to `return None`. -/
def fetchStatus : RemoteRun → Option String
  | .err => none
  | .out stdout =>
      let lines := pySplitlines (pyStrip stdout)
      if lines.length ≥ 4 then
        match lines with
        | [host, uptime, mem, disk] => some (formatStatus host uptime mem disk)
        | _ => none
      else none

/-- A JSON value as `json.load` produces it (numbers restricted to the
integers the cache timestamps are modelled with). -/
inductive JVal where
  | jnull
  | jstr (s : String)
  | jnum (n : Int)
  | jarr (elems : List JVal)
  | jobj (fields : List (String × JVal))
deriving Repr

/-- The in-memory cache dict `self.cache`, keys in insertion order. -/
abbrev CacheMap := List (String × CacheEntry)

/-- The JSON image `json.dump` writes for one cache entry. -/
def encodeEntry (e : CacheEntry) : JVal :=
  .jobj [("ts", .jnum e.ts), ("status", .jstr e.status)]

/-- The JSON image `json.dump` writes for the whole cache dict. -/
def encodeCache (c : CacheMap) : JVal :=
  .jobj (c.map fun kv => (kv.1, encodeEntry kv.2))

/-- Recover a cache entry from its JSON image (inverts `encodeEntry`). -/
def decodeEntry : JVal → Option CacheEntry
  | .jobj [("ts", .jnum t), ("status", .jstr s)] => some ⟨t, s⟩
  | _ => none

/-- Recover the cache dict field by field. -/
def decodeCacheFields : List (String × JVal) → Option CacheMap
  | [] => some []
  | (k, v) :: rest =>
      match decodeEntry v, decodeCacheFields rest with
      | some e, some r => some ((k, e) :: r)
      | _, _ => none

/-- Recover a cache dict from its JSON image (inverts `encodeCache`). -/
def decodeCache : JVal → Option CacheMap
  | .jobj fields => decodeCacheFields fields
  | _ => none

/-- The on-disk cache file as `_load_cache` sees it: absent
(`os.path.isfile` is false), present but rejected by `json.load`
(which raises, caught by the `except`), or parsed to a JSON value. -/
inductive CacheFile where
  | missing
  | corrupt
  | parsed (j : JVal)

/-- `_save_cache`: writes the JSON image of the cache. -/
def saveCache (c : CacheMap) : CacheFile := .parsed (encodeCache c)

/-- `_load_cache`: a missing file is never read and a file `json.load`
rejects leaves `self.cache` as it was (`except Exception: pass`);
otherwise `self.cache` becomes the parsed value, represented through
`decodeCache`, which inverts the encoding `json.dump` applies to a
cache dict (a parseable file of some non-cache shape is outside this
model and also left as `current`). -/
def loadCache (f : CacheFile) (current : CacheMap) : CacheMap :=
  match f with
  | .missing => current
  | .corrupt => current
  | .parsed j => (decodeCache j).getD current

/-- A Python config value: the config fields hold strings or the
integer `ssh_port`. -/
inductive PyVal where
  | pstr (s : String)
  | pint (n : Int)
deriving Repr, DecidableEq

/-- `self.config`, a Python dict modelled as its key/value pairs in
insertion order (each key at most once). -/
abbrev PyDict := List (String × PyVal)

/-- `dict.get`: the value bound to `k`, if any. -/
def dictGet (d : PyDict) (k : String) : Option PyVal :=
  (d.find? fun kv => kv.1 == k).map (·.2)

/-- `self.config[real_key] = value`: overwrite in place when the key
exists, else append (Python dict assignment keeps insertion order). -/
def dictSet (d : PyDict) (k : String) (v : PyVal) : PyDict :=
  if d.any (fun kv => kv.1 == k) then
    d.map fun kv => if kv.1 == k then (k, v) else kv
  else d ++ [(k, v)]

/-- The five connection-relevant keys `_digest_config` reads, in the
order the source lists them. -/
def digestKeys : List String :=
  ["server_ip", "ssh_port", "ssh_username", "ssh_password", "ssh_key_path"]

/-- `_digest_config`: `json.dumps([config.get(k) for k in keys])` —
the digest is determined by (and, the list serialization being
injective, determines) the list of the five values, which is what we
use as the digest. -/
def digestConfig (d : PyDict) : List (Option PyVal) :=
  digestKeys.map (dictGet d)

/-- The plugin state the config-change guard uses: the config dict and
`self._current_config_digest`, which `__init__` sets and which the
source never reassigns afterwards. -/
structure PluginState where
  cfg : PyDict
  currentDigest : List (Option PyVal)
deriving Repr, DecidableEq

/-- `__init__`: `self._current_config_digest = self._digest_config()`. -/
def initPluginState (cfg : PyDict) : PluginState := ⟨cfg, digestConfig cfg⟩

/-- The digest-relevant tail of `server_set` for an already-validated
`real_key`: capture `old_digest = self._current_config_digest`, mutate
the config, and schedule `_on_config_changed` (the returned flag) iff
the recomputed digest differs from `old_digest`.  As in the source,
`_current_config_digest` itself is not updated. -/
def serverSetStep (st : PluginState) (realKey : String) (v : PyVal) :
    PluginState × Bool :=
  let cfg2 := dictSet st.cfg realKey v
  (⟨cfg2, st.currentDigest⟩, decide (¬ digestConfig cfg2 = st.currentDigest))

/-- Python truthiness of `self.config.get("server_ip")` as tested by
`if not ip`. -/
def pyTruthy : Option PyVal → Bool
  | none => false
  | some (.pstr s) => !s.isEmpty
  | some (.pint n) => decide (n ≠ 0)

/-- What `_on_config_changed` does, as a trace: whether `_ping` ran
and whether `_connect_with_retry` was invoked.  A falsy `server_ip`
returns before probing; an unreachable probe returns before
connecting; a reachable probe proceeds to `_connect_with_retry`. -/
structure ReconnectTrace where
  probed : Bool
  connectInvoked : Bool
deriving Repr, DecidableEq

/-- `_on_config_changed` (under the reconnect lock): probe, then gate
the connect on the probe result.  `pingOk` is what `_ping` reports. -/
def onConfigChanged (ip : Option PyVal) (pingOk : Bool) : ReconnectTrace :=
  if pyTruthy ip then
    if pingOk then ⟨true, true⟩ else ⟨true, false⟩
  else ⟨false, false⟩

/-- Startup config for the stale-digest scenario: a host and the
default port. -/
def demoCfg : PyDict :=
  [("server_ip", .pstr "1.2.3.4"), ("ssh_port", .pint 22)]

/-- The state after the first mutation of the scenario: the user sets
`ssh_port` to 2222 (this one correctly triggers a reconnect). -/
def demoSt1 : PluginState :=
  (serverSetStep (initPluginState demoCfg) "ssh_port" (.pint 2222)).1

/-! ## Lemmas about the retry loop -/

theorem connectLoop_zero (o : Nat → SSHResult) (a e : Nat) (sl : List Nat) :
    connectLoop o 0 a e sl =
      ⟨false, "❌ 连续 4 次连接失败，请检查配置", a, sl.reverse, false⟩ := rfl

theorem connectLoop_transient (o : Nat → SSHResult) (r a e : Nat) (sl : List Nat)
    (he : e < 120) (ht : (o a).isTransient = true) :
    connectLoop o (r + 1) a e sl = connectLoop o r (a + 1) (e + 15) (15 :: sl) := by
  cases h : o a <;> simp [connectLoop, h, he, SSHResult.isTransient] at ht ⊢

theorem connectLoop_auth (o : Nat → SSHResult) (r a e : Nat) (sl : List Nat)
    (he : e < 120) (h : o a = .permissionDenied) :
    connectLoop o (r + 1) a e sl =
      ⟨false, "❌ 认证失败：用户名/密码或密钥错误", a + 1, sl.reverse, false⟩ := by
  simp [connectLoop, h, he]

/-- C3: if some attempt of `_connect_with_retry` raises
`PermissionDenied` (all earlier attempts having failed transiently so
that it is reached), the function returns failure right there: exactly
`k + 1` connection attempts happen in total, no sleep follows the
authentication failure (only the `k` 15-second sleeps of the earlier
transient failures), `self.connected` is set to `False`, and the
message is the non-retryable authentication-failure message. -/
theorem connect_retry_auth_short_circuit (o : Nat → SSHResult) (k : Nat)
    (hk : k < 4) (hprev : ∀ j, j < k → (o j).isTransient = true)
    (hauth : o k = .permissionDenied) :
    connectWithRetry o =
      ⟨false, "❌ 认证失败：用户名/密码或密钥错误", k + 1, List.replicate k 15, false⟩ := by
  interval_cases k
  · show connectLoop o (3 + 1) 0 0 [] = _
    rw [connectLoop_auth o 3 0 0 [] (by norm_num) hauth]
    rfl
  · show connectLoop o (3 + 1) 0 0 [] = _
    rw [connectLoop_transient o 3 0 0 [] (by norm_num) (hprev 0 (by norm_num))]
    show connectLoop o (2 + 1) 1 15 [15] = _
    rw [connectLoop_auth o 2 1 15 [15] (by norm_num) hauth]
    rfl
  · show connectLoop o (3 + 1) 0 0 [] = _
    rw [connectLoop_transient o 3 0 0 [] (by norm_num) (hprev 0 (by norm_num))]
    show connectLoop o (2 + 1) 1 15 [15] = _
    rw [connectLoop_transient o 2 1 15 [15] (by norm_num) (hprev 1 (by norm_num))]
    show connectLoop o (1 + 1) 2 30 [15, 15] = _
    rw [connectLoop_auth o 1 2 30 [15, 15] (by norm_num) hauth]
    rfl
  · show connectLoop o (3 + 1) 0 0 [] = _
    rw [connectLoop_transient o 3 0 0 [] (by norm_num) (hprev 0 (by norm_num))]
    show connectLoop o (2 + 1) 1 15 [15] = _
    rw [connectLoop_transient o 2 1 15 [15] (by norm_num) (hprev 1 (by norm_num))]
    show connectLoop o (1 + 1) 2 30 [15, 15] = _
    rw [connectLoop_transient o 1 2 30 [15, 15] (by norm_num) (hprev 2 (by norm_num))]
    show connectLoop o (0 + 1) 3 45 [15, 15, 15] = _
    rw [connectLoop_auth o 0 3 45 [15, 15, 15] (by norm_num) hauth]
    rfl

/-- Witness for `connect_retry_auth_short_circuit`: an authentication
error on the very first attempt gives one call, no sleeps, failure. -/
theorem connect_retry_auth_short_circuit_app :
    connectWithRetry (fun _ => SSHResult.permissionDenied) =
      ⟨false, "❌ 认证失败：用户名/密码或密钥错误", 1, [], false⟩ :=
  connect_retry_auth_short_circuit (fun _ => SSHResult.permissionDenied) 0
    (by norm_num) (fun j hj => absurd hj (Nat.not_lt_zero j)) rfl

/-- C4: when every attempt fails transiently, `_connect_with_retry`
makes exactly 4 connection attempts, sleeps 15 s after each of them,
sets `self.connected := False` and returns the failure message naming
the attempt count 4. -/
theorem connect_retry_exhaustion (o : Nat → SSHResult)
    (h : ∀ i, i < 4 → (o i).isTransient = true) :
    connectWithRetry o =
      ⟨false, "❌ 连续 4 次连接失败，请检查配置", 4, List.replicate 4 15, false⟩ := by
  show connectLoop o (3 + 1) 0 0 [] = _
  rw [connectLoop_transient o 3 0 0 [] (by norm_num) (h 0 (by norm_num))]
  show connectLoop o (2 + 1) 1 15 [15] = _
  rw [connectLoop_transient o 2 1 15 [15] (by norm_num) (h 1 (by norm_num))]
  show connectLoop o (1 + 1) 2 30 [15, 15] = _
  rw [connectLoop_transient o 1 2 30 [15, 15] (by norm_num) (h 2 (by norm_num))]
  show connectLoop o (0 + 1) 3 45 [15, 15, 15] = _
  rw [connectLoop_transient o 0 3 45 [15, 15, 15] (by norm_num) (h 3 (by norm_num))]
  rfl

/-- Witness for `connect_retry_exhaustion`: four straight timeouts. -/
theorem connect_retry_exhaustion_app :
    connectWithRetry (fun _ => SSHResult.timeoutError) =
      ⟨false, "❌ 连续 4 次连接失败，请检查配置", 4, [15, 15, 15, 15], false⟩ :=
  connect_retry_exhaustion (fun _ => SSHResult.timeoutError) (fun _ _ => rfl)

/-! ## Lemmas about the health-check state machine -/

theorem healthStep_alert_iff (s : HealthState) (now : Int) (st : Option String) :
    (healthStep s now st).2 = true ↔
      st = none ∧ s.connected = true ∧
        ∃ t, s.lastSuccess = some t ∧ now - t > 1200 := by
  cases st with
  | some x => simp [healthStep]
  | none =>
      cases hc : s.connected with
      | false => simp [healthStep, hc]
      | true =>
          cases hl : s.lastSuccess with
          | none => simp [healthStep, hc, hl]
          | some t =>
              by_cases hgt : now - t > 1200 <;>
                simp [healthStep, hc, hl, hgt]

theorem healthStep_alert_connected (s : HealthState) (now : Int) (st : Option String)
    (h : (healthStep s now st).2 = true) : (healthStep s now st).1.connected = false := by
  cases st with
  | some x => simp [healthStep] at h
  | none =>
      cases hc : s.connected with
      | false => simp [healthStep, hc] at h
      | true =>
          cases hl : s.lastSuccess with
          | none => simp [healthStep, hc, hl] at h
          | some t =>
              by_cases hgt : now - t > 1200
              · simp [healthStep, hc, hl, hgt]
              · simp [healthStep, hc, hl, hgt] at h

theorem healthStep_none_no_alert_state (s : HealthState) (now : Int)
    (h : (healthStep s now none).2 = false) : (healthStep s now none).1 = s := by
  cases hc : s.connected with
  | false => simp [healthStep, hc]
  | true =>
      cases hl : s.lastSuccess with
      | none => simp [healthStep, hc, hl]
      | some t =>
          by_cases hgt : now - t > 1200
          · simp [healthStep, hc, hl, hgt] at h
          · simp [healthStep, hc, hl, hgt]

theorem healthRun_no_alert_of_disconnected (s : HealthState) (h : s.connected = false)
    (t0 : Int) (polls : List (Option String)) (hall : ∀ p ∈ polls, p = none) :
    (healthRun s t0 polls).count true = 0 := by
  induction polls generalizing t0 with
  | nil => rfl
  | cons p rest ih =>
      have hp : p = none := hall p (by simp)
      subst hp
      have hstep : healthStep s (t0 + 300) none = (s, false) := by
        simp [healthStep, h]
      simp only [healthRun, hstep, List.count_cons]
      have := ih (t0 + 300) (fun q hq => hall q (by simp [hq]))
      simp [this]

theorem healthRun_alert_once (s : HealthState) (t0 : Int)
    (polls : List (Option String)) (hall : ∀ p ∈ polls, p = none) :
    (healthRun s t0 polls).count true ≤ 1 := by
  induction polls generalizing s t0 with
  | nil => simp [healthRun]
  | cons p rest ih =>
      have hp : p = none := hall p (by simp)
      subst hp
      have hrest : ∀ q ∈ rest, q = (none : Option String) :=
        fun q hq => hall q (by simp [hq])
      rcases hr : healthStep s (t0 + 300) none with ⟨s', a⟩
      cases a with
      | false =>
          simp only [healthRun, hr, List.count_cons]
          have := ih s' (t0 + 300) hrest
          simpa using this
      | true =>
          have hconn : s'.connected = false := by
            have := healthStep_alert_connected s (t0 + 300) none (by rw [hr])
            rw [hr] at this
            exact this
          simp only [healthRun, hr, List.count_cons]
          have := healthRun_no_alert_of_disconnected s' hconn (t0 + 300) rest hrest
          simp [this]

theorem healthRun_single_failure_after_success (s : HealthState) (t0 : Int)
    (x : String) : healthRun s t0 [some x, none] = [false, false] := by
  have h2 : ¬ (t0 + 300 + 300 - (t0 + 300) > 1200) := by omega
  simp [healthRun, healthStep, h2]

/-- C2: (1) `schedule_health_check` alerts on a poll exactly when the
status is null, `connected` is true, a previous success exists and
more than 1200 s have passed since it; (2) an alerting poll flips
`connected` to false; (3) over any all-failing poll stream — one
disconnection episode — at most one alert is sent in total; (4) a
successful poll followed by a single failed poll never alerts. -/
theorem health_alert_once_per_episode :
    (∀ (s : HealthState) (now : Int) (st : Option String),
        (healthStep s now st).2 = true ↔
          st = none ∧ s.connected = true ∧
            ∃ t, s.lastSuccess = some t ∧ now - t > 1200) ∧
    (∀ (s : HealthState) (now : Int) (st : Option String),
        (healthStep s now st).2 = true → (healthStep s now st).1.connected = false) ∧
    (∀ (s : HealthState) (t0 : Int) (polls : List (Option String)),
        (∀ p ∈ polls, p = none) → (healthRun s t0 polls).count true ≤ 1) ∧
    (∀ (s : HealthState) (t0 : Int) (x : String),
        healthRun s t0 [some x, none] = [false, false]) :=
  ⟨healthStep_alert_iff, healthStep_alert_connected, healthRun_alert_once,
    healthRun_single_failure_after_success⟩

/-- Witness for `health_alert_once_per_episode`: from a connected
state whose last success was 1501 s ago, a null poll alerts and the
resulting state is disconnected. -/
theorem health_alert_once_per_episode_app :
    (healthStep ⟨true, some 0⟩ 1501 none).1.connected = false :=
  health_alert_once_per_episode.2.1 ⟨true, some 0⟩ 1501 none (by decide)

/-! ## Daily report scheduler -/

/-- C1 (evaluated on the code): at 08:00 with `report_time = "09:00"`
the scheduler's computed sleep is 3600 s, as the claim says; but at
09:30 the code sleeps `86400 - 34200 = 52200` s — until midnight —
and then pushes, not the 84600 s (23.5 h) until the next day's 09:00
that the next-occurrence rule specified by the claim requires. -/
theorem daily_report_wait_divergence :
    dailyWaitSeconds 8 0 0 9 0 = 3600 ∧
    dailyWaitSeconds 9 30 0 9 0 = 52200 ∧
    specNextOccurrenceWait 9 30 0 9 0 = 84600 ∧
    dailyWaitSeconds 9 30 0 9 0 ≠ specNextOccurrenceWait 9 30 0 9 0 := by
  norm_num [dailyWaitSeconds, specNextOccurrenceWait, timeToSecs]

/-! ## Lemmas about the status cache -/

theorem getServerStatus_hit (cache : String → Option CacheEntry) (ip : String)
    (now : Int) (fresh : Option String) (e : CacheEntry)
    (hc : cache ip = some e) (hlt : now - e.ts < 60) :
    getServerStatus cache ip now fresh = ⟨some e.status, false, cache⟩ := by
  simp [getServerStatus, hc, hlt]

theorem getServerStatus_miss_fetches (cache : String → Option CacheEntry)
    (ip : String) (now : Int) (fresh : Option String)
    (h : cache ip = none ∨ ∃ e, cache ip = some e ∧ 60 ≤ now - e.ts) :
    (getServerStatus cache ip now fresh).fetched = true := by
  rcases h with h | ⟨e, he, hage⟩
  · cases fresh <;> simp [getServerStatus, h]
  · have hn : ¬ (now - e.ts < 60) := by omega
    cases fresh <;> simp [getServerStatus, he, hn]

theorem getServerStatus_miss_updates (cache : String → Option CacheEntry)
    (ip : String) (now : Int) (s : String)
    (h : cache ip = none ∨ ∃ e, cache ip = some e ∧ 60 ≤ now - e.ts) :
    (getServerStatus cache ip now (some s)).cache ip = some ⟨now, s⟩ := by
  rcases h with h | ⟨e, he, hage⟩
  · simp [getServerStatus, h]
  · have hn : ¬ (now - e.ts < 60) := by omega
    simp [getServerStatus, he, hn]

theorem getServerStatus_fetched_cache (cache : String → Option CacheEntry)
    (ip : String) (t : Int) (s : String)
    (h : (getServerStatus cache ip t (some s)).fetched = true) :
    (getServerStatus cache ip t (some s)).cache ip = some ⟨t, s⟩ := by
  cases hc : cache ip with
  | none => simp [getServerStatus, hc]
  | some e =>
      by_cases hlt : t - e.ts < 60
      · simp [getServerStatus, hc, hlt] at h
      · simp [getServerStatus, hc, hlt]

/-- C5: (1) a request finding an entry younger than 60 s returns its
status with no remote round-trip and an unchanged cache; (2) a request
finding no entry, or one aged 60 s or more, invokes `_fetch_status`,
and when that fetch succeeds the entry is overwritten with the fresh
status stamped `now`; (3) hence after a successful fresh fetch at
time `t`, a request at `t2` with `t2 - t < 60` performs no round-trip
and returns the same status; (4) while a request at `t2 - t ≥ 61`
performs a new round-trip. -/
theorem status_cache_ttl :
    (∀ (cache : String → Option CacheEntry) (ip : String) (now : Int)
        (fresh : Option String) (e : CacheEntry),
        cache ip = some e → now - e.ts < 60 →
        getServerStatus cache ip now fresh = ⟨some e.status, false, cache⟩) ∧
    (∀ (cache : String → Option CacheEntry) (ip : String) (now : Int)
        (fresh : Option String),
        (cache ip = none ∨ ∃ e, cache ip = some e ∧ 60 ≤ now - e.ts) →
        (getServerStatus cache ip now fresh).fetched = true ∧
        ∀ s, fresh = some s →
          (getServerStatus cache ip now fresh).cache ip = some ⟨now, s⟩) ∧
    (∀ (cache : String → Option CacheEntry) (ip : String) (t : Int) (s : String)
        (t2 : Int) (fresh2 : Option String),
        (getServerStatus cache ip t (some s)).fetched = true → t2 - t < 60 →
        (getServerStatus (getServerStatus cache ip t (some s)).cache ip t2 fresh2).fetched
            = false ∧
        (getServerStatus (getServerStatus cache ip t (some s)).cache ip t2 fresh2).result
            = some s) ∧
    (∀ (cache : String → Option CacheEntry) (ip : String) (t : Int) (s : String)
        (t2 : Int) (fresh2 : Option String),
        (getServerStatus cache ip t (some s)).fetched = true → 61 ≤ t2 - t →
        (getServerStatus (getServerStatus cache ip t (some s)).cache ip t2 fresh2).fetched
            = true) := by
  refine ⟨getServerStatus_hit, ?_, ?_, ?_⟩
  · intro cache ip now fresh h
    refine ⟨getServerStatus_miss_fetches cache ip now fresh h, fun s hs => ?_⟩
    subst hs
    exact getServerStatus_miss_updates cache ip now s h
  · intro cache ip t s t2 fresh2 hf hlt
    have hc := getServerStatus_fetched_cache cache ip t s hf
    have hhit := getServerStatus_hit _ ip t2 fresh2 ⟨t, s⟩ hc hlt
    rw [hhit]
    exact ⟨rfl, rfl⟩
  · intro cache ip t s t2 fresh2 hf hge
    have hc := getServerStatus_fetched_cache cache ip t s hf
    exact getServerStatus_miss_fetches _ ip t2 fresh2
      (Or.inr ⟨⟨t, s⟩, hc, (by omega : (60 : Int) ≤ t2 - t)⟩)

/-- Witness for `status_cache_ttl`: a first fetch on an empty cache at
time 0 succeeds; a second request at time 30 is served from the cache
with no round-trip and the same status. -/
theorem status_cache_ttl_app :
    (getServerStatus (getServerStatus (fun _ => none) "h" 0 (some "ok")).cache
        "h" 30 none).fetched = false ∧
    (getServerStatus (getServerStatus (fun _ => none) "h" 0 (some "ok")).cache
        "h" 30 none).result = some "ok" :=
  status_cache_ttl.2.2.1 (fun _ => none) "h" 0 "ok" 30 none rfl (by norm_num)

/-! ## Lemmas about the status fetcher's output parsing -/

theorem fetchStatus_short (s : String)
    (h : (pySplitlines (pyStrip s)).length < 4) : fetchStatus (.out s) = none := by
  have hn : ¬ (pySplitlines (pyStrip s)).length ≥ 4 := by omega
  simp [fetchStatus, hn]

theorem fetchStatus_long (s : String)
    (h : (pySplitlines (pyStrip s)).length > 4) : fetchStatus (.out s) = none := by
  rcases hx : pySplitlines (pyStrip s) with _ | ⟨a, _ | ⟨b, _ | ⟨c, _ | ⟨d, _ | ⟨e, rest⟩⟩⟩⟩⟩ <;>
    rw [hx] at h
  · simp at h
  · simp at h
  · simp at h
  · simp at h
  · simp at h
  · have h4 : (a :: b :: c :: d :: e :: rest).length ≥ 4 := by
      simp only [List.length_cons]
      omega
    simp [fetchStatus, hx, h4]

/-- C6: a transport error anywhere inside `_fetch_status` (session
acquisition or command execution) is swallowed and yields `None`; and
an output with fewer than four newline-delimited fields also yields
`None`, never a partial report string. -/
theorem fetch_status_errors_and_short_output_null :
    fetchStatus .err = none ∧
    ∀ s : String, (pySplitlines (pyStrip s)).length < 4 →
      fetchStatus (.out s) = none :=
  ⟨rfl, fetchStatus_short⟩

/-- Witness for `fetch_status_errors_and_short_output_null`:
a two-line output yields `None`. -/
theorem fetch_status_errors_and_short_output_null_app :
    fetchStatus (.out "a\nb") = none :=
  fetch_status_errors_and_short_output_null.2 "a\nb" (by decide)

/-- C10: output with more than four newline-delimited lines also
yields `None` (the 4-way unpacking raises, and the handler converts it
to `None`); a formatted report is produced only when the output has
exactly four lines. -/
theorem fetch_status_exactly_four_lines (s : String) :
    ((pySplitlines (pyStrip s)).length > 4 → fetchStatus (.out s) = none) ∧
    (∀ r, fetchStatus (.out s) = some r → (pySplitlines (pyStrip s)).length = 4) := by
  refine ⟨fetchStatus_long s, fun r hr => ?_⟩
  by_contra hne
  have hnone : fetchStatus (.out s) = none := by
    rcases Nat.lt_or_ge (pySplitlines (pyStrip s)).length 4 with hlt | hge
    · exact fetchStatus_short s hlt
    · exact fetchStatus_long s (by omega)
  rw [hnone] at hr
  exact Option.noConfusion hr

/-- Witness for `fetch_status_exactly_four_lines`: a five-line output
yields `None`. -/
theorem fetch_status_exactly_four_lines_app :
    fetchStatus (.out "a\nb\nc\nd\ne") = none :=
  (fetch_status_exactly_four_lines "a\nb\nc\nd\ne").1 (by decide)

/-! ## Cache persistence round trip -/

theorem decodeEntry_encodeEntry (e : CacheEntry) :
    decodeEntry (encodeEntry e) = some e := rfl

theorem decodeCache_encodeCache (c : CacheMap) :
    decodeCache (encodeCache c) = some c := by
  induction c with
  | nil => rfl
  | cons kv rest ih =>
      have ih' : decodeCacheFields (rest.map fun kv => (kv.1, encodeEntry kv.2))
          = some rest := by
        simpa [encodeCache, decodeCache] using ih
      simp [encodeCache, decodeCache, decodeCacheFields, decodeEntry_encodeEntry, ih']

/-- C7: saving the cache and loading it back reproduces exactly the
same `{host: {ts, status}}` entries, whatever the cache the loader
started from; and loading a missing or corrupted (unparsable) cache
file leaves the startup cache empty instead of failing. -/
theorem cache_save_load_round_trip :
    (∀ (c current : CacheMap), loadCache (saveCache c) current = c) ∧
    loadCache .missing [] = [] ∧ loadCache .corrupt [] = [] :=
  ⟨fun c current => by simp [saveCache, loadCache, decodeCache_encodeCache],
    rfl, rfl⟩

/-! ## Config digest and change guard -/

/-- C9: two config dicts agreeing on the five connection-relevant keys
have equal digests, regardless of insertion order and of any other
keys they hold. -/
theorem digest_order_independent (c1 c2 : PyDict)
    (h : ∀ k ∈ digestKeys, dictGet c1 k = dictGet c2 k) :
    digestConfig c1 = digestConfig c2 := by
  have h1 := h "server_ip" (by simp [digestKeys])
  have h2 := h "ssh_port" (by simp [digestKeys])
  have h3 := h "ssh_username" (by simp [digestKeys])
  have h4 := h "ssh_password" (by simp [digestKeys])
  have h5 := h "ssh_key_path" (by simp [digestKeys])
  simp [digestConfig, digestKeys, h1, h2, h3, h4, h5]

/-- Witness for `digest_order_independent`: the same three connection
fields inserted in different orders, with different extra fields,
digest equally. -/
theorem digest_order_independent_app :
    digestConfig
        [("server_ip", PyVal.pstr "1.2.3.4"), ("ssh_port", PyVal.pint 22),
         ("ssh_username", PyVal.pstr "root"), ("report_time", PyVal.pstr "09:00")] =
      digestConfig
        [("report_target", PyVal.pstr "chat:42"), ("ssh_username", PyVal.pstr "root"),
         ("server_ip", PyVal.pstr "1.2.3.4"), ("ssh_port", PyVal.pint 22)] :=
  digest_order_independent _ _ (by decide)

/-- C8 (evaluated on the code): `server_set` compares the fresh digest
against `self._current_config_digest`, which `__init__` computed and
which is never reassigned.  Starting from `{server_ip, ssh_port:22}`:
setting `ssh_port := 2222` triggers a reconnect (digest changed — this
much matches the claim); but then setting `report_time`, which leaves
the digest unchanged, also schedules a reconnect, and setting
`ssh_port` back to 22, which does change the digest, schedules none.
The probe gating itself behaves as claimed: an unreachable probe stops
before `_connect_with_retry`, a reachable one invokes it. -/
theorem config_change_trigger_uses_stale_digest :
    (serverSetStep (initPluginState demoCfg) "ssh_port" (.pint 2222)).2 = true ∧
    digestConfig (serverSetStep demoSt1 "report_time" (.pstr "10:00")).1.cfg
        = digestConfig demoSt1.cfg ∧
    (serverSetStep demoSt1 "report_time" (.pstr "10:00")).2 = true ∧
    digestConfig (serverSetStep demoSt1 "ssh_port" (.pint 22)).1.cfg
        ≠ digestConfig demoSt1.cfg ∧
    (serverSetStep demoSt1 "ssh_port" (.pint 22)).2 = false ∧
    onConfigChanged (some (.pstr "1.2.3.4")) false = ⟨true, false⟩ ∧
    onConfigChanged (some (.pstr "1.2.3.4")) true = ⟨true, true⟩ := by
  decide
